import Mathlib

/-
Shallow embedding of the specification-driven mock HTTP service, translated
from server.js and responseGenerator.js of the repository: JSON values with
JavaScript truthiness, the response generator with its static-override,
status-selection, example, schema and empty-fallback branches, the
per-request handler with the x-mock-retrieve and x-mock-store branches over
the in-memory data store, and the dynamic route registration with
Express-style first-match dispatch.
-/

namespace MockApi

/-- JSON-style values as handled by the server: request bodies, response
bodies, examples, schemas and static-override bodies. -/
inductive Json where
  | null
  | bool (b : Bool)
  | num (n : Int)
  | str (s : String)
  | arr (elems : List Json)
  | obj (fields : List (String × Json))

/-- JavaScript truthiness of a JSON value: undefined and null, false, 0 and
the empty string are falsy; every object and every array is truthy. The
absent value (undefined) is represented by Json.null, which has the same
truthiness and the same observable behavior in the translated code paths. -/
def jsTruthy : Json → Bool
  | .null => false
  | .bool b => b
  | .num n => n != 0
  | .str s => s != ""
  | .arr _ => true
  | .obj _ => true

/-- Truthiness of an optional JSON value, as in the checks content?.example
and content?.schema: an absent value is falsy, a present value has its own
truthiness. -/
def jsTruthyOpt : Option Json → Bool
  | none => false
  | some j => jsTruthy j

/-- Truthiness of an optional string property, as in the checks on
referenceField and on the x-mock-response header: absent or empty is falsy. -/
def jsTruthyStr? : Option String → Bool
  | none => false
  | some s => s != ""

/-- Property lookup on a JavaScript object, modelled as an association list
kept in insertion order; a missing key is the absent value (none). -/
def lookupKey {α : Type} : List (String × α) → String → Option α
  | [], _ => none
  | (k', v) :: rest, k => if k' = k then some v else lookupKey rest k

/-- Property assignment on an object field list: an existing key is
overwritten in place, a new key is appended at the end, as JavaScript
property assignment behaves under JSON serialization. -/
def setKey : List (String × Json) → String → Json → List (String × Json)
  | [], k, v => [(k, v)]
  | (k', v') :: rest, k, v =>
      if k' = k then (k, v) :: rest else (k', v') :: setKey rest k v

/-- Observable effect of the assignment body[k] = v through the JSON
serialization of the response: on an object it sets the key; on any other
value it has no observable effect (assigning a property to a primitive is
silently ignored outside strict mode, and string-keyed properties added to
an array are dropped by JSON serialization). -/
def setField (body : Json) (k : String) (v : Json) : Json :=
  match body with
  | .obj fields => .obj (setKey fields k v)
  | other => other

/-- Uppercasing of one ASCII character, the per-character behavior of the
toUpperCase call on the HTTP method names appearing in the contract. -/
def upChar (c : Char) : Char :=
  if c.toNat ≥ 97 ∧ c.toNat ≤ 122 then Char.ofNat (c.toNat - 32) else c

/-- Model of method.toUpperCase() on the ASCII method names. -/
def jsToUpper (s : String) : String := String.mk (s.data.map upChar)

/-- Decimal digit test on a character. -/
def digit? (c : Char) : Bool := 48 ≤ c.toNat ∧ c.toNat ≤ 57

/-- Accumulate the leading decimal digits of a character list. -/
def parseDigits : List Char → Nat → Nat
  | [], acc => acc
  | c :: cs, acc => if digit? c then parseDigits cs (acc * 10 + (c.toNat - 48)) else acc

/-- Model of the parseInt call on the status keys of the contract, which are
digit strings such as "200"; it reads the leading decimal digits. -/
def jsParseInt (s : String) : Nat := parseDigits s.data 0

/-- Content entry of one response definition for one media type, carrying an
optional literal example and an optional schema, both arbitrary JSON. -/
structure ContentDef where
  example? : Option Json
  schema : Option Json

/-- Response definition for one status code: its content map keyed by media
type (the generator only consults the application/json entry). Response
definitions in a contract accepted by the validator are objects, so key
presence coincides with truthiness of the looked-up definition. -/
structure ResponseDef where
  content : List (String × ContentDef)

/-- Payload of the x-mock-store extension; referenceField is the destructured
property, absent when the extension object does not carry it. -/
structure StoreAnnotation where
  referenceField : Option String

/-- Payload of the x-mock-retrieve extension; param names the path parameter
used for the lookup. -/
structure RetrieveAnnotation where
  param : String

/-- One operation of the contract document: its responses object (absent
modelled as the empty list, matching the fallback to the empty object in the
generator) and the two optional x-mock extensions read by the handler. -/
structure Operation where
  responses : List (String × ResponseDef)
  xMockStore : Option StoreAnnotation
  xMockRetrieve : Option RetrieveAnnotation

/-- One entry of the static responses file: a fixed status and body. -/
structure StaticResp where
  status : Nat
  body : Json

/-- Static responses document: path, then upper-case method, to the fixed
response. The entries are objects, hence truthy, so the truthiness test in
the generator coincides with key presence. -/
abbrev StaticTable := List (String × List (String × StaticResp))

/-- Lookup staticResponses[path]?.[methodUpper] of the generator. -/
def lookupStatic (t : StaticTable) (path methodUpper : String) : Option StaticResp :=
  (lookupKey t path).bind fun m => lookupKey m methodUpper

/-- Response produced for one request: HTTP status plus JSON body. -/
structure Resp where
  status : Nat
  body : Json

/-- Translation of generateResponse of responseGenerator.js: first the
static-response check on the exact path and upper-cased method, then status
selection (the requested status if it is a key of the responses object, else
the literal "200"), the 500 error when the selected status has no response
definition, then example-first, schema-synthesis (the external synthesizer
jsf taken as a parameter), and the empty-object fallback. -/
def generateResponse (path method : String) (op : Operation)
    (staticResponses : StaticTable) (requestedStatus : String)
    (jsf : Json → Json) : Resp :=
  match lookupStatic staticResponses path (jsToUpper method) with
  | some staticResp => ⟨staticResp.status, staticResp.body⟩
  | none =>
      let responses := op.responses
      let status := if (lookupKey responses requestedStatus).isSome then requestedStatus else "200"
      match lookupKey responses status with
      | none => ⟨500, Json.obj [("error", Json.str ("No response defined for status " ++ status))]⟩
      | some responseDef =>
          let content := lookupKey responseDef.content "application/json"
          let ex := content.bind ContentDef.example?
          let sch := content.bind ContentDef.schema
          if jsTruthyOpt ex then ⟨jsParseInt status, ex.getD Json.null⟩
          else if jsTruthyOpt sch then ⟨jsParseInt status, jsf (sch.getD Json.null)⟩
          else ⟨jsParseInt status, Json.obj []⟩

/-- Model of the uuidv4 reference generator: a fresh-identifier supply
indexed by a counter carried in the server state. Collisions of uuidv4 are
treated as impossible, the negligible-collision reading mandated by the
specification, which the supply realizes by injectivity. -/
def genRef (n : Nat) : String := String.mk (List.replicate (n + 1) 'r')

/-- Mutable server state: the module-level dataStore map (newest binding
first, so lookup sees the latest write, matching Map semantics) together
with the counter indexing the fresh-reference supply. -/
structure MockState where
  dataStore : List (String × Json)
  counter : Nat

/-- Incoming request as read by the handler: the path parameters bound by
the route match, the parsed JSON body (Json.null when absent), and the
optional x-mock-response header. -/
structure Request where
  params : List (String × String)
  body : Json
  xMockResponse : Option String

/-- Translation of the requestedStatus computation of the handler: the
x-mock-response header when present and truthy, else the literal "200". -/
def requestedStatusOf (req : Request) : String :=
  match req.xMockResponse with
  | some s => if s ≠ "" then s else "200"
  | none => "200"

/-- Body of the Not found response of the retrieve branch. -/
def notFoundBody : Json := Json.obj [("error", Json.str "Not found")]

/-- Outcome of the x-mock-retrieve branch on the looked-up value: the single
truthiness test of the handler sends both an absent entry and a present but
falsy entry to the 404 response. -/
def retrieveResp (data : Option Json) : Resp :=
  match data with
  | some d => if jsTruthy d then ⟨200, d⟩ else ⟨404, notFoundBody⟩
  | none => ⟨404, notFoundBody⟩

/-- Translation of the per-request handler of server.js: the x-mock-retrieve
branch (path-parameter lookup chained into the dataStore lookup, returning
before any other rule runs and leaving the state unchanged), otherwise
generateResponse, then the x-mock-store branch (fresh reference, store of
the request body, and injection of the reference into the response body when
the body and referenceField are truthy), and the final response. -/
def handler (path method : String) (op : Operation) (staticResponses : StaticTable)
    (jsf : Json → Json) (req : Request) (st : MockState) : Resp × MockState :=
  match op.xMockRetrieve with
  | some ann =>
      (retrieveResp ((lookupKey req.params ann.param).bind (lookupKey st.dataStore)), st)
  | none =>
      let response := generateResponse path method op staticResponses (requestedStatusOf req) jsf
      match op.xMockStore with
      | some ann =>
          let reference := genRef st.counter
          (⟨response.status,
              if jsTruthy response.body && jsTruthyStr? ann.referenceField then
                setField response.body (ann.referenceField.getD "") (Json.str reference)
              else response.body⟩,
            ⟨(reference, req.body) :: st.dataStore, st.counter + 1⟩)
      | none => (response, st)

/-- Segment of a route pattern: a literal segment or a named parameter,
the two shapes Express distinguishes after the replace of curly-brace
placeholders by colon-prefixed parameter names. -/
inductive Seg where
  | lit (s : String)
  | param (name : String)

/-- Split a character list on the slash separator. -/
def splitSlash : List Char → List Char → List (List Char)
  | [], acc => [acc.reverse]
  | c :: cs, acc => if c = '/' then acc.reverse :: splitSlash cs [] else splitSlash cs (c :: acc)

/-- Classify one nonempty path-template segment: a whole-segment placeholder
of the form open-brace name close-brace becomes a named parameter (the
replace in server.js turns it into a colon parameter that Express matches
against one concrete segment), any other segment is a literal. -/
def toSeg (cs : List Char) : Seg :=
  match cs with
  | '{' :: rest =>
      if rest.getLast? = some '}' then Seg.param (String.mk rest.dropLast)
      else Seg.lit (String.mk cs)
  | _ => Seg.lit (String.mk cs)

/-- Pattern of a path template, segment by segment, empty segments dropped,
modelling the registration path.replace of server.js followed by the
segment-wise pattern Express derives from the colon-form path. -/
def segsOfTemplate (tpl : String) : List Seg :=
  ((splitSlash tpl.data []).filter (fun cs => cs ≠ [])).map toSeg

/-- One registered route: the template and method it was registered under
and the operation whose handler it dispatches to. -/
structure RouteEntry where
  path : String
  method : String
  operation : Operation

/-- Paths object of the contract document: ordered list of path templates,
each with its ordered list of method and operation pairs. -/
abbrev SpecPaths := List (String × List (String × Operation))

/-- Translation of the dynamic route registration of server.js: the nested
forEach over spec.paths registers one route per declared operation, in
declaration order, with no structural check on the x-mock annotations. -/
def buildRouteTable : SpecPaths → List RouteEntry
  | [] => []
  | (p, ms) :: rest => ms.map (fun mo => ⟨p, mo.1, mo.2⟩) ++ buildRouteTable rest

/-- Match a route pattern against the segments of a concrete request path:
a literal segment must coincide, a parameter consumes one segment. -/
def matchSegs : List Seg → List String → Bool
  | [], [] => true
  | Seg.lit s :: ps, x :: xs => s == x && matchSegs ps xs
  | Seg.param _ :: ps, _ :: xs => matchSegs ps xs
  | _, _ => false

/-- Express dispatch over the registered routes: the layers are tried in
registration order and the first route whose method matches and whose
pattern matches the request path handles the request. -/
def findRoute : List RouteEntry → String → List String → Option RouteEntry
  | [], _, _ => none
  | r :: rest, method, segs =>
      if r.method == method && matchSegs (segsOfTemplate r.path) segs then some r
      else findRoute rest method segs

/-- One invocation of a registered handler: the path and method the route
was registered under, its operation, and the incoming request. -/
structure Call where
  path : String
  method : String
  op : Operation
  req : Request

/-- Run the handler for one call against the shared state. -/
def step (staticResponses : StaticTable) (jsf : Json → Json) (c : Call)
    (st : MockState) : Resp × MockState :=
  handler c.path c.method c.op staticResponses jsf c.req st

/-- Run a sequence of calls, threading the shared state. -/
def runCalls (staticResponses : StaticTable) (jsf : Json → Json) :
    List Call → MockState → MockState
  | [], st => st
  | c :: cs, st => runCalls staticResponses jsf cs (step staticResponses jsf c st).2

/-- Call that takes the x-mock-store branch of the handler: store annotation
present and retrieve annotation absent. -/
def isStoreCall (c : Call) : Bool := c.op.xMockRetrieve.isNone && c.op.xMockStore.isSome

/-- References issued along a sequence of calls: each store call issues the
reference generated from the counter of the state it runs in. -/
def refsIssued (staticResponses : StaticTable) (jsf : Json → Json) :
    List Call → MockState → List String
  | [], _ => []
  | c :: cs, st =>
      (if isStoreCall c then [genRef st.counter] else [])
        ++ refsIssued staticResponses jsf cs (step staticResponses jsf c st).2

/-- Invariant of the server state: every key of the dataStore was issued by
the fresh-reference supply at an index below the current counter. It holds
for the initial empty store and is preserved by every handler call. -/
def StoreInv (st : MockState) : Prop :=
  ∀ kv ∈ st.dataStore, ∃ i, i < st.counter ∧ kv.1 = genRef i

theorem genRef_inj {m n : Nat} (h : genRef m = genRef n) : m = n := by
  have h2 := congrArg (fun s => s.data.length) h
  simpa [genRef] using h2

theorem lookupKey_mem {α : Type} {l : List (String × α)} {k : String} {v : α}
    (h : lookupKey l k = some v) : (k, v) ∈ l := by
  induction l with
  | nil => simp [lookupKey] at h
  | cons hd tl ih =>
      obtain ⟨k', v'⟩ := hd
      by_cases hk : k' = k
      · subst hk
        simp [lookupKey] at h
        subst h
        exact List.mem_cons_self _ _
      · simp [lookupKey, hk] at h
        exact List.mem_cons_of_mem _ (ih h)

theorem step_counter_le (s : StaticTable) (jsf : Json → Json) (c : Call) (st : MockState) :
    st.counter ≤ ((step s jsf c st).2).counter := by
  unfold step handler
  cases c.op.xMockRetrieve with
  | some ann => simp
  | none =>
      cases c.op.xMockStore with
      | some ann => simp
      | none => simp

theorem step_store (s : StaticTable) (jsf : Json → Json) (c : Call) (st : MockState)
    (h : isStoreCall c = true) :
    (step s jsf c st).2 =
      ⟨(genRef st.counter, c.req.body) :: st.dataStore, st.counter + 1⟩ := by
  obtain ⟨h1, h2⟩ := by simpa [isStoreCall] using h
  obtain ⟨ann, h2⟩ := Option.isSome_iff_exists.mp h2
  simp [step, handler, h1, h2]

theorem step_preserves (s : StaticTable) (jsf : Json → Json) (c : Call) (st : MockState)
    (h : StoreInv st) :
    StoreInv ((step s jsf c st).2) ∧
      ∀ k v, lookupKey st.dataStore k = some v →
        lookupKey ((step s jsf c st).2).dataStore k = some v := by
  unfold step handler
  cases c.op.xMockRetrieve with
  | some ann => exact ⟨h, fun _ _ hk => hk⟩
  | none =>
      cases c.op.xMockStore with
      | none => exact ⟨h, fun _ _ hk => hk⟩
      | some ann =>
          simp only
          constructor
          · intro kv hkv
            rcases List.mem_cons.mp hkv with heq | hmem
            · exact ⟨st.counter, Nat.lt_succ_self _, by rw [heq]⟩
            · obtain ⟨i, hi, hki⟩ := h kv hmem
              exact ⟨i, Nat.lt_succ_of_lt hi, hki⟩
          · intro k v hk
            have hne : genRef st.counter ≠ k := by
              intro hcontra
              obtain ⟨i, hi, hki⟩ := h _ (lookupKey_mem hk)
              exact absurd (genRef_inj (hcontra.trans hki)) (Nat.ne_of_gt hi)
            simpa [lookupKey, hne] using hk

theorem runCalls_preserves (s : StaticTable) (jsf : Json → Json) (cs : List Call)
    (st : MockState) (h : StoreInv st) :
    StoreInv (runCalls s jsf cs st) ∧
      ∀ k v, lookupKey st.dataStore k = some v →
        lookupKey (runCalls s jsf cs st).dataStore k = some v := by
  induction cs generalizing st with
  | nil => exact ⟨h, fun _ _ hk => hk⟩
  | cons c rest ih =>
      obtain ⟨h1, h2⟩ := step_preserves s jsf c st h
      obtain ⟨h3, h4⟩ := ih _ h1
      exact ⟨h3, fun k v hk => h4 k v (h2 k v hk)⟩

theorem mem_refsIssued (s : StaticTable) (jsf : Json → Json) (cs : List Call)
    (st : MockState) :
    ∀ x ∈ refsIssued s jsf cs st, ∃ i, st.counter ≤ i ∧ x = genRef i := by
  induction cs generalizing st with
  | nil => simp [refsIssued]
  | cons c rest ih =>
      intro x hx
      rw [refsIssued, List.mem_append] at hx
      rcases hx with hx | hx
      · cases hsc : isStoreCall c with
        | true => exact ⟨st.counter, Nat.le_refl _, by simpa [hsc] using hx⟩
        | false => simp [hsc] at hx
      · obtain ⟨i, hi, hxi⟩ := ih _ x hx
        exact ⟨i, Nat.le_trans (step_counter_le s jsf c st) hi, hxi⟩

theorem refsIssued_nodup (s : StaticTable) (jsf : Json → Json) (cs : List Call)
    (st : MockState) : (refsIssued s jsf cs st).Nodup := by
  induction cs generalizing st with
  | nil => simp [refsIssued]
  | cons c rest ih =>
      rw [refsIssued]
      cases hsc : isStoreCall c with
      | false => simpa [hsc] using ih ((step s jsf c st).2)
      | true =>
          simp only [hsc, if_true, List.singleton_append, List.nodup_cons]
          refine ⟨fun hmem => ?_, ih _⟩
          obtain ⟨i, hi, hgi⟩ := mem_refsIssued s jsf rest _ _ hmem
          rw [step_store s jsf c st hsc] at hi
          simp only [] at hi
          exact absurd (genRef_inj hgi) (Nat.ne_of_lt hi)

/-- Claim C9: if one operation carries both the store annotation and the
retrieve annotation, every request to it is handled entirely by the
retrieval rule: the response is the stored payload with status 200 or the
Not found 404, the state is unchanged, so the store side effect never
executes and no new reference is ever issued by that operation. -/
theorem c9_both_annotations_retrieve_only
    (p m : String) (op : Operation) (rAnn : RetrieveAnnotation) (sAnn : StoreAnnotation)
    (hr : op.xMockRetrieve = some rAnn) (_hs : op.xMockStore = some sAnn)
    (s : StaticTable) (jsf : Json → Json) (req : Request) (st : MockState) :
    (handler p m op s jsf req st).2 = st ∧
      ((∃ d, (lookupKey req.params rAnn.param).bind (lookupKey st.dataStore) = some d ∧
          jsTruthy d = true ∧ (handler p m op s jsf req st).1 = ⟨200, d⟩) ∨
        (handler p m op s jsf req st).1 = ⟨404, notFoundBody⟩) := by
  refine ⟨by simp [handler, hr], ?_⟩
  cases hd : (lookupKey req.params rAnn.param).bind (lookupKey st.dataStore) with
  | none => exact Or.inr (by simp [handler, hr, hd, retrieveResp])
  | some d =>
      cases ht : jsTruthy d with
      | true => exact Or.inl ⟨d, rfl, ht, by simp [handler, hr, hd, retrieveResp, ht]⟩
      | false => exact Or.inr (by simp [handler, hr, hd, retrieveResp, ht])

/-- Concrete instance of claim C9: a both-annotated operation leaves a
nonempty state untouched. -/
theorem c9_both_annotations_retrieve_only_witness :
    (handler "/payments/{reference}" "get"
        ⟨[], some ⟨some "reference"⟩, some ⟨"reference"⟩⟩ [] (fun _ => Json.null)
        ⟨[("reference", "k")], Json.obj [("amount", Json.num 5)], none⟩
        ⟨[("k", Json.obj [("a", Json.num 1)])], 5⟩).2
      = ⟨[("k", Json.obj [("a", Json.num 1)])], 5⟩ :=
  (c9_both_annotations_retrieve_only "/payments/{reference}" "get"
    ⟨[], some ⟨some "reference"⟩, some ⟨"reference"⟩⟩ ⟨"reference"⟩ ⟨some "reference"⟩
    rfl rfl [] (fun _ => Json.null)
    ⟨[("reference", "k")], Json.obj [("amount", Json.num 5)], none⟩
    ⟨[("k", Json.obj [("a", Json.num 1)])], 5⟩).1

/-- Claim C2 is false on the code: a request to a retrieve-annotated
operation whose exact path and method have a static override entry is
answered by the retrieval rule (here 404 Not found), not with the override;
the handler returns from the retrieve branch before generateResponse, the
only place the static table is read, ever runs. -/
theorem c2_static_vs_retrieve_counterexample :
    (handler "/payments/{reference}" "get"
        ⟨[], none, some ⟨"reference"⟩⟩
        [("/payments/{reference}", [("GET", ⟨299, Json.str "override"⟩)])]
        (fun _ => Json.null)
        ⟨[("reference", "unknown")], Json.null, none⟩ ⟨[], 0⟩).1
      = ⟨404, notFoundBody⟩ ∧
    lookupStatic [("/payments/{reference}", [("GET", ⟨299, Json.str "override"⟩)])]
        "/payments/{reference}" (jsToUpper "get") = some ⟨299, Json.str "override"⟩ ∧
    (⟨404, notFoundBody⟩ : Resp) ≠ ⟨299, Json.str "override"⟩ := by
  refine ⟨rfl, rfl, ?_⟩
  simp [notFoundBody]

/-- Claim C2 (amended): for every request to a retrieve-annotated operation
the stateful retrieval rule is applied and the static override table is
never consulted: the outcome does not depend on the static table, the
synthesizer, or the registered path and method, and it equals the
retrieval outcome on the looked-up reference with the state unchanged. -/
theorem c2_retrieve_precedes_static
    (op : Operation) (rAnn : RetrieveAnnotation) (hr : op.xMockRetrieve = some rAnn)
    (p m p' m' : String) (s s' : StaticTable) (jsf jsf' : Json → Json)
    (req : Request) (st : MockState) :
    handler p m op s jsf req st = handler p' m' op s' jsf' req st ∧
      handler p m op s jsf req st =
        (retrieveResp ((lookupKey req.params rAnn.param).bind (lookupKey st.dataStore)), st) := by
  constructor <;> simp [handler, hr]

/-- Concrete instance of claim C2 as amended: the retrieval outcome is the
same under two different static tables, paths, methods and synthesizers. -/
theorem c2_retrieve_precedes_static_witness :
    handler "/a" "get" ⟨[], none, some ⟨"ref"⟩⟩
        [("/a", [("GET", ⟨201, Json.null⟩)])] (fun _ => Json.null)
        ⟨[("ref", "k")], Json.null, none⟩ ⟨[("k", Json.str "v")], 1⟩
      = handler "/b" "post" ⟨[], none, some ⟨"ref"⟩⟩ [] (fun _ => Json.str "x")
        ⟨[("ref", "k")], Json.null, none⟩ ⟨[("k", Json.str "v")], 1⟩ :=
  (c2_retrieve_precedes_static ⟨[], none, some ⟨"ref"⟩⟩ ⟨"ref"⟩ rfl
    "/a" "get" "/b" "post" [("/a", [("GET", ⟨201, Json.null⟩)])] []
    (fun _ => Json.null) (fun _ => Json.str "x")
    ⟨[("ref", "k")], Json.null, none⟩ ⟨[("k", Json.str "v")], 1⟩).1

/-- Claim C7 is false on the code as stated: here an entry for the looked-up
reference is present in the data store (its stored payload is the null
body), yet the response is 404 Not found rather than 200 with the stored
payload, because the branch tests the truthiness of the value. -/
theorem c7_falsy_entry_counterexample :
    lookupKey ([("k", Json.null)] : List (String × Json)) "k" = some Json.null ∧
    (handler "/payments/{reference}" "get" ⟨[], none, some ⟨"reference"⟩⟩ []
        (fun _ => Json.null) ⟨[("reference", "k")], Json.null, none⟩
        ⟨[("k", Json.null)], 1⟩).1 = ⟨404, notFoundBody⟩ :=
  ⟨rfl, rfl⟩

/-- Claim C7 (amended): for every request to a retrieve-annotated operation
the named path parameter is looked up in the data store; an entry found
with a truthy payload gives exactly the 200 response with the stored
payload, while an absent entry or one whose stored payload is falsy gives
exactly the 404 Not found response; the state is unchanged and no further
resolution rule runs, so the body is never a schema-synthesized or example
body. -/
theorem c7_retrieve_resolution
    (op : Operation) (rAnn : RetrieveAnnotation) (hr : op.xMockRetrieve = some rAnn)
    (p m : String) (s : StaticTable) (jsf : Json → Json) (req : Request) (st : MockState) :
    (handler p m op s jsf req st).2 = st ∧
      (∀ d, (lookupKey req.params rAnn.param).bind (lookupKey st.dataStore) = some d →
          jsTruthy d = true → (handler p m op s jsf req st).1 = ⟨200, d⟩) ∧
      (jsTruthyOpt ((lookupKey req.params rAnn.param).bind (lookupKey st.dataStore)) = false →
          (handler p m op s jsf req st).1 = ⟨404, notFoundBody⟩) := by
  refine ⟨by simp [handler, hr],
    fun d hd ht => by simp [handler, hr, hd, retrieveResp, ht], fun hf => ?_⟩
  cases hd : (lookupKey req.params rAnn.param).bind (lookupKey st.dataStore) with
  | none => simp [handler, hr, hd, retrieveResp]
  | some d =>
      rw [hd] at hf
      simp only [jsTruthyOpt] at hf
      simp [handler, hr, hd, retrieveResp, hf]

/-- Concrete instance of claim C7 as amended: a stored truthy payload is
returned with status 200. -/
theorem c7_retrieve_resolution_witness :
    (handler "/payments/{reference}" "get" ⟨[], none, some ⟨"reference"⟩⟩ []
        (fun _ => Json.null) ⟨[("reference", "k")], Json.null, none⟩
        ⟨[("k", Json.obj [("amount", Json.num 100)])], 1⟩).1
      = ⟨200, Json.obj [("amount", Json.num 100)]⟩ :=
  (c7_retrieve_resolution ⟨[], none, some ⟨"reference"⟩⟩ ⟨"reference"⟩ rfl
    "/payments/{reference}" "get" [] (fun _ => Json.null)
    ⟨[("reference", "k")], Json.null, none⟩
    ⟨[("k", Json.obj [("amount", Json.num 100)])], 1⟩).2.1
    (Json.obj [("amount", Json.num 100)]) rfl rfl

/-- Claim C3 is false on the code for store-annotated operations: with a
static override entry present, the store branch still runs after the
override is selected and injects the freshly generated reference into the
override body, so the response body is not byte-for-byte the override
body. -/
theorem c3_store_injection_counterexample :
    lookupStatic [("/payments", [("POST", ⟨299, Json.obj [("foo", Json.num 1)]⟩)])]
        "/payments" (jsToUpper "post") = some ⟨299, Json.obj [("foo", Json.num 1)]⟩ ∧
    (handler "/payments" "post" ⟨[], some ⟨some "reference"⟩, none⟩
        [("/payments", [("POST", ⟨299, Json.obj [("foo", Json.num 1)]⟩)])]
        (fun _ => Json.null) ⟨[], Json.obj [("amount", Json.num 100)], none⟩ ⟨[], 0⟩).1.body
      = Json.obj [("foo", Json.num 1), ("reference", Json.str "r")] ∧
    Json.obj [("foo", Json.num 1), ("reference", Json.str "r")]
      ≠ Json.obj [("foo", Json.num 1)] := by
  refine ⟨rfl, rfl, by simp⟩

/-- Claim C3 (amended): for an operation without retrieveAnnotation whose
path and method have a static override entry, the override status is always
returned; when the operation also lacks a storeAnnotation the whole
response is the override verbatim, byte-for-byte, with the state unchanged;
when a storeAnnotation is present the request body is stored under a fresh
reference and the only modification of the override body is the injection
of that reference under referenceField (when the body and referenceField
are truthy). -/
theorem c3_static_override_verbatim
    (p m : String) (op : Operation) (hr : op.xMockRetrieve = none)
    (s : StaticTable) (sr : StaticResp) (hs : lookupStatic s p (jsToUpper m) = some sr)
    (jsf : Json → Json) (req : Request) (st : MockState) :
    (op.xMockStore = none → handler p m op s jsf req st = (⟨sr.status, sr.body⟩, st)) ∧
      (∀ ann, op.xMockStore = some ann →
        (handler p m op s jsf req st).1.status = sr.status ∧
        (handler p m op s jsf req st).1.body =
          (if jsTruthy sr.body && jsTruthyStr? ann.referenceField then
              setField sr.body (ann.referenceField.getD "") (Json.str (genRef st.counter))
            else sr.body) ∧
        (handler p m op s jsf req st).2 =
          ⟨(genRef st.counter, req.body) :: st.dataStore, st.counter + 1⟩) := by
  constructor
  · intro hsto
    simp [handler, hr, hsto, generateResponse, hs]
  · intro ann hsto
    refine ⟨?_, ?_, ?_⟩ <;> simp [handler, hr, hsto, generateResponse, hs]

/-- Concrete instance of claim C3 as amended: with no annotations at all the
override is returned verbatim. -/
theorem c3_static_override_verbatim_witness :
    handler "/accounts/123" "get" ⟨[("200", ⟨[]⟩)], none, none⟩
        [("/accounts/123", [("GET", ⟨404, Json.obj [("error", Json.str "Account not found")]⟩)])]
        (fun _ => Json.null) ⟨[], Json.null, none⟩ ⟨[], 0⟩
      = (⟨404, Json.obj [("error", Json.str "Account not found")]⟩, ⟨[], 0⟩) :=
  (c3_static_override_verbatim "/accounts/123" "get" ⟨[("200", ⟨[]⟩)], none, none⟩ rfl
    [("/accounts/123", [("GET", ⟨404, Json.obj [("error", Json.str "Account not found")]⟩)])]
    ⟨404, Json.obj [("error", Json.str "Account not found")]⟩ rfl
    (fun _ => Json.null) ⟨[], Json.null, none⟩ ⟨[], 0⟩).1 rfl

/-- Claim C4 is false on the code: for an operation declaring only status
404 and a request with no status-override header, the code answers with the
synthetic 500 No-response-defined error rather than with the numerically
first declared status 404; the generator falls back to the literal 200 and
has no first-declared-status fallback. -/
theorem c4_no_first_declared_fallback_counterexample :
    lookupKey ([("404", (⟨[]⟩ : ResponseDef))] : List (String × ResponseDef)) "404"
      = some ⟨[]⟩ ∧
    (handler "/a" "get" ⟨[("404", ⟨[]⟩)], none, none⟩ [] (fun _ => Json.null)
        ⟨[], Json.null, none⟩ ⟨[], 0⟩).1
      = ⟨500, Json.obj [("error", Json.str "No response defined for status 200")]⟩ ∧
    (500 : Nat) ≠ jsParseInt "404" := by
  refine ⟨rfl, rfl, by decide⟩

/-- Claim C4 (amended): when no static override or retrieval rule applies,
the resolved status is the requested status (the status-override header,
defaulting to 200) if that status is a declared key of the responses
object; otherwise the generator falls back to the literal 200, and if no
200 response is declared either it answers 500 with the
No-response-defined error body: there is no fallback to the first declared
status. -/
theorem c4_status_selection
    (p m : String) (op : Operation) (hret : op.xMockRetrieve = none)
    (hsto : op.xMockStore = none) (s : StaticTable)
    (hstat : lookupStatic s p (jsToUpper m) = none)
    (jsf : Json → Json) (req : Request) (st : MockState) :
    (∀ rd, lookupKey op.responses (requestedStatusOf req) = some rd →
        (handler p m op s jsf req st).1.status = jsParseInt (requestedStatusOf req)) ∧
    (lookupKey op.responses (requestedStatusOf req) = none →
      (∀ rd, lookupKey op.responses "200" = some rd →
          (handler p m op s jsf req st).1.status = 200) ∧
      (lookupKey op.responses "200" = none →
          (handler p m op s jsf req st).1
            = ⟨500, Json.obj [("error", Json.str "No response defined for status 200")]⟩)) := by
  have hh : handler p m op s jsf req st
      = (generateResponse p m op s (requestedStatusOf req) jsf, st) := by
    simp [handler, hret, hsto]
  constructor
  · intro rd hrd
    rw [hh]
    simp only [generateResponse, hstat, hrd, Option.isSome_some, if_true]
    split
    · rfl
    · split <;> rfl
  · intro hnone
    constructor
    · intro rd hrd
      rw [hh]
      simp only [generateResponse, hstat, hnone, hrd, Option.isSome_none,
        Bool.false_eq_true, if_false]
      split
      · rfl
      · split <;> rfl
    · intro h200
      rw [hh]
      simp only [generateResponse, hstat, hnone, h200, Option.isSome_none,
        Bool.false_eq_true, if_false]
      rfl

/-- Concrete instance of claim C4 as amended: a declared requested status is
honored. -/
theorem c4_status_selection_witness :
    (handler "/a" "get" ⟨[("201", ⟨[]⟩)], none, none⟩ [] (fun _ => Json.null)
        ⟨[], Json.null, some "201"⟩ ⟨[], 0⟩).1.status = 201 :=
  (c4_status_selection "/a" "get" ⟨[("201", ⟨[]⟩)], none, none⟩ rfl rfl [] rfl
    (fun _ => Json.null) ⟨[], Json.null, some "201"⟩ ⟨[], 0⟩).1 ⟨[]⟩ rfl

/-- Claim C8 is false on the code as stated: a declared literal example that
is a falsy JSON value (here the number 0) is skipped by the truthiness test
on content example, and the schema synthesizer is consulted instead of the
example being returned. -/
theorem c8_falsy_example_counterexample :
    (lookupKey ([("application/json",
          (⟨some (Json.num 0), some (Json.obj [("type", Json.str "string")])⟩ : ContentDef))]
        : List (String × ContentDef)) "application/json").bind ContentDef.example?
      = some (Json.num 0) ∧
    generateResponse "/a" "get"
        ⟨[("200", ⟨[("application/json",
            ⟨some (Json.num 0), some (Json.obj [("type", Json.str "string")])⟩)]⟩)],
          none, none⟩ [] "200" (fun _ => Json.str "synth")
      = ⟨200, Json.str "synth"⟩ ∧
    Json.str "synth" ≠ Json.num 0 := by
  refine ⟨rfl, rfl, by simp⟩

/-- Claim C8 (amended): when no override, store, or retrieve rule applies
and the selected status declares a truthy literal example payload, that
example is returned unmodified even when a schema is also declared; the
schema synthesizer is consulted only when no truthy example exists, and an
empty object is returned when neither a truthy example nor a truthy schema
exists (a falsy declared example, such as 0 or the empty string, is treated
as absent by the truthiness test). -/
theorem c8_example_precedence
    (p m : String) (op : Operation) (s : StaticTable) (jsf : Json → Json)
    (rs : String) (rd : ResponseDef)
    (hstat : lookupStatic s p (jsToUpper m) = none)
    (hsel : lookupKey op.responses rs = some rd) :
    (∀ e, (lookupKey rd.content "application/json").bind ContentDef.example? = some e →
        jsTruthy e = true →
        generateResponse p m op s rs jsf = ⟨jsParseInt rs, e⟩) ∧
    (jsTruthyOpt ((lookupKey rd.content "application/json").bind ContentDef.example?) = false →
      ∀ sch, (lookupKey rd.content "application/json").bind ContentDef.schema = some sch →
        jsTruthy sch = true →
        generateResponse p m op s rs jsf = ⟨jsParseInt rs, jsf sch⟩) ∧
    (jsTruthyOpt ((lookupKey rd.content "application/json").bind ContentDef.example?) = false →
      jsTruthyOpt ((lookupKey rd.content "application/json").bind ContentDef.schema) = false →
        generateResponse p m op s rs jsf = ⟨jsParseInt rs, Json.obj []⟩) := by
  refine ⟨?_, ?_, ?_⟩
  · intro e he ht
    simp [generateResponse, hstat, hsel, he, jsTruthyOpt, ht]
  · intro hf sch hsch hts
    simp [generateResponse, hstat, hsel, hf, hsch, hts]
    intro hcontra
    simp [jsTruthyOpt, hts] at hcontra
  · intro hf hg
    simp [generateResponse, hstat, hsel, hf, hg]

/-- Concrete instance of claim C8 as amended: a truthy example wins over a
declared schema. -/
theorem c8_example_precedence_witness :
    generateResponse "/accounts/{accountId}" "get"
        ⟨[("200", ⟨[("application/json",
            ⟨some (Json.obj [("id", Json.str "123")]),
              some (Json.obj [("type", Json.str "object")])⟩)]⟩)],
          none, none⟩ [] "200" (fun _ => Json.str "synth")
      = ⟨200, Json.obj [("id", Json.str "123")]⟩ :=
  (c8_example_precedence "/accounts/{accountId}" "get"
    ⟨[("200", ⟨[("application/json",
        ⟨some (Json.obj [("id", Json.str "123")]),
          some (Json.obj [("type", Json.str "object")])⟩)]⟩)],
      none, none⟩ [] (fun _ => Json.str "synth") "200"
    ⟨[("application/json",
        ⟨some (Json.obj [("id", Json.str "123")]),
          some (Json.obj [("type", Json.str "object")])⟩)]⟩ rfl rfl).1
    (Json.obj [("id", Json.str "123")]) rfl rfl

/-- Claim C5 is false on the code: the registration loop performs no check
on the annotations, so a contract whose single operation carries both the
store and the retrieve annotation is registered without any
ContractStructureError and yields a route table containing that
operation. -/
theorem c5_both_annotations_accepted_counterexample :
    buildRouteTable [("/payments/{reference}",
        [("get", ⟨[], some ⟨some "reference"⟩, some ⟨"reference"⟩⟩)])]
      = [⟨"/payments/{reference}", "get",
          ⟨[], some ⟨some "reference"⟩, some ⟨"reference"⟩⟩⟩] ∧
    (⟨[], some ⟨some "reference"⟩, some ⟨"reference"⟩⟩ : Operation).xMockStore ≠ none ∧
    (⟨[], some ⟨some "reference"⟩, some ⟨"reference"⟩⟩ : Operation).xMockRetrieve ≠ none := by
  refine ⟨rfl, by simp, by simp⟩

/-- Claim C5 (amended): building the route table never fails and performs
no conflicting-annotation check: every declared operation, including one
carrying both the store and the retrieve annotation, is registered, one
route per declared method on each path, in declaration order (requests to a
both-annotated operation are then handled entirely by the retrieval
branch). -/
theorem c5_build_total (paths : SpecPaths) :
    (buildRouteTable paths).length = (paths.map (fun pm => pm.2.length)).sum ∧
      ∀ p ms, (p, ms) ∈ paths → ∀ m o, (m, o) ∈ ms →
        (⟨p, m, o⟩ : RouteEntry) ∈ buildRouteTable paths := by
  induction paths with
  | nil => simp [buildRouteTable]
  | cons hd tl ih =>
      obtain ⟨p0, ms0⟩ := hd
      refine ⟨by simp [buildRouteTable, ih.1], ?_⟩
      intro p ms hmem m o hmo
      rcases List.mem_cons.mp hmem with heq | hmem2
      · rw [Prod.mk.injEq] at heq
        obtain ⟨h1, h2⟩ := heq
        subst h1
        subst h2
        exact List.mem_append_left _ (List.mem_map.mpr ⟨(m, o), hmo, rfl⟩)
      · exact List.mem_append_right _ (ih.2 p ms hmem2 m o hmo)

/-- Concrete instance of claim C5 as amended: a both-annotated operation is
present in the table built from its contract. -/
theorem c5_build_total_witness :
    (⟨"/payments/{reference}", "get",
        ⟨[], some ⟨some "reference"⟩, some ⟨"reference"⟩⟩⟩ : RouteEntry)
      ∈ buildRouteTable [("/payments/{reference}",
          [("get", ⟨[], some ⟨some "reference"⟩, some ⟨"reference"⟩⟩)])] :=
  (c5_build_total [("/payments/{reference}",
      [("get", ⟨[], some ⟨some "reference"⟩, some ⟨"reference"⟩⟩)])]).2
    "/payments/{reference}"
    [("get", ⟨[], some ⟨some "reference"⟩, some ⟨"reference"⟩⟩)] (by simp)
    "get" ⟨[], some ⟨some "reference"⟩, some ⟨"reference"⟩⟩ (by simp)

/-- Claim C6 is false on the code: routes are registered in declaration
order and Express dispatches to the first registered match, so when the
parameterized template is declared before the literal one, a concrete path
matched by both is handled by the parameterized route, although the literal
route also matches. -/
theorem c6_declaration_order_counterexample :
    findRoute (buildRouteTable
        [("/payments/{reference}", [("get", ⟨[], none, some ⟨"reference"⟩⟩)]),
          ("/payments/summary", [("get", ⟨[], none, none⟩)])])
        "get" ["payments", "summary"]
      = some ⟨"/payments/{reference}", "get", ⟨[], none, some ⟨"reference"⟩⟩⟩ ∧
    matchSegs (segsOfTemplate "/payments/summary") ["payments", "summary"] = true ∧
    ("/payments/{reference}" : String) ≠ "/payments/summary" := by
  refine ⟨rfl, rfl, by decide⟩

/-- Claim C6 (amended): dispatch selects the first registered route whose
method and pattern match the request, so the literal-segment route is
preferred over a parameterized one exactly when it is declared first;
declaration order, not literal-over-parameterized precedence, decides. -/
theorem c6_first_match_wins (pre : List RouteEntry) (r : RouteEntry) (post : List RouteEntry)
    (method : String) (segs : List String)
    (hpre : ∀ e ∈ pre, (e.method == method && matchSegs (segsOfTemplate e.path) segs) = false)
    (hr : (r.method == method && matchSegs (segsOfTemplate r.path) segs) = true) :
    findRoute (pre ++ r :: post) method segs = some r := by
  induction pre with
  | nil => simp [findRoute, hr]
  | cons e rest ih =>
      have he := hpre e (List.mem_cons_self e rest)
      rw [List.cons_append, findRoute, he]
      simp only [Bool.false_eq_true, if_false]
      exact ih fun e' h' => hpre e' (List.mem_cons_of_mem _ h')

/-- Concrete instance of claim C6 as amended: the literal route declared
first wins over the parameterized route. -/
theorem c6_first_match_wins_witness :
    findRoute [⟨"/payments/summary", "get", ⟨[], none, none⟩⟩,
        ⟨"/payments/{reference}", "get", ⟨[], none, some ⟨"reference"⟩⟩⟩]
      "get" ["payments", "summary"]
      = some ⟨"/payments/summary", "get", ⟨[], none, none⟩⟩ :=
  c6_first_match_wins [] ⟨"/payments/summary", "get", ⟨[], none, none⟩⟩
    [⟨"/payments/{reference}", "get", ⟨[], none, some ⟨"reference"⟩⟩⟩]
    "get" ["payments", "summary"] (by intro e he; simp at he) rfl

/-- Claim C10: for a store-annotated operation and a request whose body is
a falsy value (absent or null, the empty string, zero, false), a fresh
reference is still generated and the request body stored under it, the
reference is injected into the response body (whenever the resolved body
and referenceField are truthy), yet a retrieve call with that issued
reference answers 404 Not found rather than the stored payload, because
the retrieval branch tests the truthiness of the stored value rather than
the presence of the key. -/
theorem c10_falsy_store_retrieve_404
    (p m : String) (op : Operation) (ann : StoreAnnotation)
    (hret : op.xMockRetrieve = none) (hsto : op.xMockStore = some ann)
    (s : StaticTable) (jsf : Json → Json) (req : Request) (st : MockState)
    (hfalsy : jsTruthy req.body = false)
    (retrOp : Operation) (rAnn : RetrieveAnnotation) (hr : retrOp.xMockRetrieve = some rAnn)
    (p2 m2 : String) (req2 : Request)
    (hparam : lookupKey req2.params rAnn.param = some (genRef st.counter)) :
    ((handler p m op s jsf req st).2).counter = st.counter + 1 ∧
    lookupKey ((handler p m op s jsf req st).2).dataStore (genRef st.counter) = some req.body ∧
    (jsTruthy (generateResponse p m op s (requestedStatusOf req) jsf).body = true →
      jsTruthyStr? ann.referenceField = true →
      (handler p m op s jsf req st).1.body =
        setField (generateResponse p m op s (requestedStatusOf req) jsf).body
          (ann.referenceField.getD "") (Json.str (genRef st.counter))) ∧
    handler p2 m2 retrOp s jsf req2 ((handler p m op s jsf req st).2)
      = (⟨404, notFoundBody⟩, (handler p m op s jsf req st).2) := by
  have hstate : (handler p m op s jsf req st).2
      = ⟨(genRef st.counter, req.body) :: st.dataStore, st.counter + 1⟩ := by
    simp [handler, hret, hsto]
  refine ⟨by rw [hstate], ?_, ?_, ?_⟩
  · rw [hstate]
    simp [lookupKey]
  · intro ht hf
    simp [handler, hret, hsto, ht, hf]
  · rw [hstate]
    simp [handler, hr, hparam, lookupKey, retrieveResp, hfalsy]

/-- Concrete instance of claim C10: the store call on a null body issues the
reference, but retrieving that reference yields 404 Not found. -/
theorem c10_falsy_store_retrieve_404_witness :
    handler "/payments/{reference}" "get" ⟨[], none, some ⟨"reference"⟩⟩ []
        (fun _ => Json.null) ⟨[("reference", "r")], Json.null, none⟩
        ((handler "/payments" "post" ⟨[], some ⟨some "reference"⟩, none⟩ []
            (fun _ => Json.null) ⟨[], Json.null, none⟩ ⟨[], 0⟩).2)
      = (⟨404, notFoundBody⟩,
          (handler "/payments" "post" ⟨[], some ⟨some "reference"⟩, none⟩ []
            (fun _ => Json.null) ⟨[], Json.null, none⟩ ⟨[], 0⟩).2) :=
  (c10_falsy_store_retrieve_404 "/payments" "post" ⟨[], some ⟨some "reference"⟩, none⟩
    ⟨some "reference"⟩ rfl rfl [] (fun _ => Json.null) ⟨[], Json.null, none⟩ ⟨[], 0⟩ rfl
    ⟨[], none, some ⟨"reference"⟩⟩ ⟨"reference"⟩ rfl "/payments/{reference}" "get"
    ⟨[("reference", "r")], Json.null, none⟩ rfl).2.2.2

/-- Claim C1 is false on the code as universally stated: a store call whose
request body is the null body still issues the fresh reference (here the
single-character reference of the first store) and stores the body, but the
retrieve counterpart invoked with that issued reference answers 404 Not
found rather than the submitted request body. -/
theorem c1_falsy_body_counterexample :
    (step [] (fun _ => Json.null)
        ⟨"/payments", "post", ⟨[], some ⟨some "reference"⟩, none⟩, ⟨[], Json.null, none⟩⟩
        ⟨[], 0⟩).2.dataStore = [("r", Json.null)] ∧
    (handler "/payments/{reference}" "get" ⟨[], none, some ⟨"reference"⟩⟩ []
        (fun _ => Json.null) ⟨[("reference", "r")], Json.null, none⟩
        (step [] (fun _ => Json.null)
          ⟨"/payments", "post", ⟨[], some ⟨some "reference"⟩, none⟩, ⟨[], Json.null, none⟩⟩
          ⟨[], 0⟩).2).1
      = ⟨404, notFoundBody⟩ ∧
    (⟨404, notFoundBody⟩ : Resp) ≠ ⟨200, Json.null⟩ := by
  refine ⟨rfl, rfl, by simp [notFoundBody]⟩

/-- Claim C1 (amended): every call to a store-annotated operation stores the
request body under a freshly generated reference, any number of calls issue
pairwise distinct references, and whenever the submitted request body is
truthy the retrieve-annotated counterpart, invoked with the issued
reference after any further calls, returns exactly the submitted request
body with status 200 (for a falsy request body the retrieve call instead
answers 404, as the counterexample shows). -/
theorem c1_store_retrieve_round_trip
    (s : StaticTable) (jsf : Json → Json) (calls : List Call) (st : MockState)
    (hinv : StoreInv st)
    (c : Call) (hstore : isStoreCall c = true) (hbody : jsTruthy c.req.body = true)
    (later : List Call)
    (retrOp : Operation) (rAnn : RetrieveAnnotation) (hr : retrOp.xMockRetrieve = some rAnn)
    (p2 m2 : String) (req2 : Request)
    (hparam : lookupKey req2.params rAnn.param = some (genRef st.counter)) :
    (refsIssued s jsf calls st).Nodup ∧
    lookupKey ((step s jsf c st).2).dataStore (genRef st.counter) = some c.req.body ∧
    (handler p2 m2 retrOp s jsf req2 (runCalls s jsf later (step s jsf c st).2)).1
      = ⟨200, c.req.body⟩ := by
  have h2 : lookupKey ((step s jsf c st).2).dataStore (genRef st.counter) = some c.req.body := by
    rw [step_store s jsf c st hstore]
    simp [lookupKey]
  refine ⟨refsIssued_nodup s jsf calls st, h2, ?_⟩
  have h1 : StoreInv ((step s jsf c st).2) := (step_preserves s jsf c st hinv).1
  have h3 := (runCalls_preserves s jsf later _ h1).2 _ _ h2
  simp [handler, hr, hparam, h3, retrieveResp, hbody]

/-- Concrete instance of claim C1 as amended: a payment body stored by the
store-annotated operation is returned by the retrieve-annotated
counterpart under the issued reference. -/
theorem c1_store_retrieve_round_trip_witness :
    (handler "/payments/{reference}" "get" ⟨[], none, some ⟨"reference"⟩⟩ []
        (fun _ => Json.null) ⟨[("reference", "r")], Json.null, none⟩
        (runCalls [] (fun _ => Json.null) []
          (step [] (fun _ => Json.null)
            ⟨"/payments", "post", ⟨[], some ⟨some "reference"⟩, none⟩,
              ⟨[], Json.obj [("amount", Json.num 100), ("currency", Json.str "USD")], none⟩⟩
            ⟨[], 0⟩).2)).1
      = ⟨200, Json.obj [("amount", Json.num 100), ("currency", Json.str "USD")]⟩ :=
  (c1_store_retrieve_round_trip [] (fun _ => Json.null) [] ⟨[], 0⟩
    (by intro kv hkv; simp at hkv)
    ⟨"/payments", "post", ⟨[], some ⟨some "reference"⟩, none⟩,
      ⟨[], Json.obj [("amount", Json.num 100), ("currency", Json.str "USD")], none⟩⟩
    rfl rfl []
    ⟨[], none, some ⟨"reference"⟩⟩ ⟨"reference"⟩ rfl
    "/payments/{reference}" "get" ⟨[("reference", "r")], Json.null, none⟩ rfl).2.2

end MockApi
